import Mathlib

/-!
Shallow embedding of the two diagnostic scripts of the JCoDroneEdu repository:
`src/scripts/compare_altitude_sensors.py` and `src/scripts/test_python_baseline.py`.

Each script is modelled as a function from an environment (the outcome of every
SDK call made through the drone session handle) to the trace of observable
events the script produces: printed lines, SDK calls, sleeps, and the session
close.  An SDK call either returns a value or raises a Python exception
carrying a message; this is modelled by `PyResult`.  Lines that interpolate a
numeric value are modelled structurally (`NumLine`): the label, the value, the
format precision (`some k` for a `:.kf` format specifier, `none` for Python's
default formatting) and the unit suffix, exactly as they appear in the
f-strings of the source.
-/

/-- Outcome of a call into the drone SDK: a normal return or a raised
exception carrying its message text (the `str(e)` that the scripts print). -/
inductive PyResult (α : Type) where
  | ok (a : α) : PyResult α
  | exn (msg : String) : PyResult α
deriving DecidableEq

/-- One printed line that interpolates a numeric value: its literal label, the
value, the precision of the format spec (`some 2` for `:.2f`, `none` when the
f-string uses default formatting) and the literal unit suffix. -/
structure NumLine where
  label : String
  value : ℚ
  precision : Option Nat
  unit : String
deriving DecidableEq

/-- Observable events of a script run: printed lines (literal or numeric),
each SDK call, sleeps, the traceback dump of the top-level handler, and the
session close. -/
inductive Ev where
  | print (s : String) : Ev
  | printNum (l : NumLine) : Ev
  | callPair : Ev
  | callGetRangeData : Ev
  | callGetHeight : Ev
  | callGetStateData : Ev
  | callSendRequest (a b : Nat) : Ev
  | callGetPressure : Ev
  | callGetDroneTemperature : Ev
  | callGetInformationData : Ev
  | callGetCpuIdData : Ev
  | callGetAddressData : Ev
  | callGetCountData : Ev
  | callGetFlightTime : Ev
  | callGetTakeoffCount : Ev
  | callGetLandingCount : Ev
  | callGetAccidentCount : Ev
  | callGetTemperature : Ev
  | callGetBattery : Ev
  | callClose : Ev
  | sleep (seconds : ℚ) : Ev
  | traceback : Ev
deriving DecidableEq

/-- Python list indexing `xs[i]` for a non-negative literal index: returns the
element, or raises `IndexError: list index out of range` when the list is too
short. -/
def pyIndex (xs : List ℚ) (i : Nat) : PyResult ℚ :=
  match xs.get? i with
  | some v => PyResult.ok v
  | none => PyResult.exn "list index out of range"

/-- The `"=" * 70` separator line. -/
def eq70 : String := String.mk (List.replicate 70 (Char.ofNat 61))

/-- The `"=" * 60` separator line. -/
def eq60 : String := String.mk (List.replicate 60 (Char.ofNat 61))

/-- The `"-" * 60` separator line. -/
def dash60 : String := String.mk (List.replicate 60 (Char.ofNat 45))

/-- Environment of `compare_altitude_sensors.py`: the outcome of each SDK call
the script can make on the session handle. -/
structure DroneEnvC where
  pair : PyResult Unit
  get_range_data : PyResult (List ℚ)
  get_height : PyResult ℚ
  get_state_data : PyResult (List ℚ)
  sendRequest : PyResult Unit
  get_pressure : PyResult ℚ
  get_drone_temperature : PyResult ℚ
deriving DecidableEq

/-- The match marker of line 48 of `compare_altitude_sensors.py`:
`'✓' if abs(height_m - bottom_range_m) < 0.001 else '✗'`. -/
def matchMarker (height_m bottom_range_m : ℚ) : String :=
  if |height_m - bottom_range_m| < 1/1000 then "✓" else "✗"

/-- Lines 16–20 of `compare_altitude_sensors.py`, printed before the `Drone()`
constructor runs. -/
def comparePreamble : List Ev :=
  [Ev.print eq70,
   Ev.print "Altitude Sensor Comparison Test",
   Ev.print "Comparing Range Sensor vs Barometric Altitude",
   Ev.print eq70,
   Ev.print ""]

/-- Header lines 33–38 (range-sensor section). -/
def rangeHeader : List Ev :=
  [Ev.print eq70,
   Ev.print "RANGE SENSOR (Time-of-Flight)",
   Ev.print eq70,
   Ev.print "This is the laser/IR sensor that measures distance to ground",
   Ev.print "Short range (~2-3m max), used for precise landing",
   Ev.print ""]

/-- Header lines 51–56 (barometric section). -/
def baroHeader : List Ev :=
  [Ev.print eq70,
   Ev.print "BAROMETRIC ALTITUDE (Pressure Sensor)",
   Ev.print eq70,
   Ev.print "This calculates altitude from air pressure",
   Ev.print "Long range (hundreds of meters), used for flight altitude",
   Ev.print ""]

/-- Lines 45–49: the four range-sensor report lines and the blank line. -/
def rangeReport (mm h : ℚ) : List Ev :=
  [Ev.printNum { label := "  Bottom Range (raw):  ", value := mm, precision := none, unit := " mm" },
   Ev.printNum { label := "  Bottom Range:        ", value := mm / 1000, precision := some 3, unit := " m" },
   Ev.printNum { label := "  get_height():        ", value := h, precision := some 3, unit := " m" },
   Ev.print ("  Match: " ++ matchMarker h (mm / 1000)),
   Ev.print ""]

/-- Lines 60–63: the state-data block, printed only when the state list is
truthy and longer than 10 elements. -/
def stateReport (st : List ℚ) : List Ev :=
  if st ≠ [] ∧ 10 < st.length then
    [Ev.print ("  State data available: " ++ toString st.length ++ " elements"),
     Ev.print "  (State data structure: timestamp, position x/y/z, velocity, etc.)"]
  else []

/-- Lines 71–77: pressure/temperature report and the explanatory note. -/
def pressureReport (p t : ℚ) : List Ev :=
  [Ev.printNum { label := "  Pressure:      ", value := p, precision := some 2, unit := " hPa" },
   Ev.printNum { label := "  Temperature:   ", value := t, precision := some 2, unit := " °C" },
   Ev.print "",
   Ev.print "  Note: Python library doesn\x27t expose raw barometric altitude",
   Ev.print "        (the altitude with firmware offset)",
   Ev.print "        This is the value that Java\x27s getUncorrectedElevation() reads",
   Ev.print ""]

/-- Lines 79–89: the fixed textual conclusion. -/
def conclusionLines : List Ev :=
  [Ev.print eq70,
   Ev.print "CONCLUSION",
   Ev.print eq70,
   Ev.print "✓ Range sensor (get_height) reads: 0.0m - CORRECT (drone on ground)",
   Ev.print "⚠️  Barometric altitude reads: ~126m - Has firmware offset issue",
   Ev.print "",
   Ev.print "Java Equivalents:",
   Ev.print "  • get_height() → getHeight() [Range sensor] ✓ Same",
   Ev.print "  • [no method] → getUncorrectedElevation() [Barometric] ✗ Not exposed",
   Ev.print "  • [no method] → getCorrectedElevation() [Calculated] ✗ Not exposed",
   Ev.print ""]

/-- The `try` body of `compare_altitude_sensors.py` (lines 24–89): the events
it emits, paired with `some msg` when an exception escapes the body (to be
caught by the top-level handler), `none` on normal completion.  The probes run
strictly in sequence with no per-probe handler, so the first raising call ends
the body. -/
def compareTryBody (env : DroneEnvC) : List Ev × Option String :=
  let e1 := [Ev.print "📡 Connecting...", Ev.callPair]
  match env.pair with
  | PyResult.exn m => (e1, some m)
  | PyResult.ok _ =>
    let e2 := e1 ++ [Ev.print "✅ Connected\n", Ev.sleep (1/2)] ++ rangeHeader ++
      [Ev.callGetRangeData]
    match env.get_range_data with
    | PyResult.exn m => (e2, some m)
    | PyResult.ok r =>
      match pyIndex r 2 with
      | PyResult.exn m => (e2, some m)
      | PyResult.ok mm =>
        let e3 := e2 ++ [Ev.callGetHeight]
        match env.get_height with
        | PyResult.exn m => (e3, some m)
        | PyResult.ok h =>
          let e4 := e3 ++ rangeReport mm h ++ baroHeader ++ [Ev.callGetStateData]
          match env.get_state_data with
          | PyResult.exn m => (e4, some m)
          | PyResult.ok st =>
            let e5 := e4 ++ stateReport st ++ [Ev.callSendRequest 16 32]
            match env.sendRequest with
            | PyResult.exn m => (e5, some m)
            | PyResult.ok _ =>
              let e6 := e5 ++ [Ev.sleep (1/10), Ev.callGetPressure]
              match env.get_pressure with
              | PyResult.exn m => (e6, some m)
              | PyResult.ok p =>
                let e7 := e6 ++ [Ev.callGetDroneTemperature]
                match env.get_drone_temperature with
                | PyResult.exn m => (e7, some m)
                | PyResult.ok t =>
                  (e7 ++ pressureReport p t ++ conclusionLines, none)

/-- The `try`/`except`/`finally` region of lines 24–98: body events, then the
top-level handler on an escaped exception, always followed by the `finally`
teardown (lines 95–98). -/
def compareMain (env : DroneEnvC) : List Ev :=
  comparePreamble ++
  (match compareTryBody env with
   | (evs, some m) => evs ++ [Ev.print ("\n❌ Error: " ++ m), Ev.traceback]
   | (evs, none) => evs) ++
  [Ev.print "Disconnecting...", Ev.callClose, Ev.print "Done."]

/-- The whole of `main` in `compare_altitude_sensors.py`, with the `Drone()`
constructor itself allowed to raise (line 22, outside the `try`).  Returns the
trace and `some msg` when an exception escapes `main` unhandled. -/
def compareRun (ctor : PyResult Unit) (env : DroneEnvC) : List Ev × Option String :=
  match ctor with
  | PyResult.exn m => (comparePreamble, some m)
  | PyResult.ok _ => (compareMain env, none)

/-- Device-information record returned by `get_information_data`: its printed
representation plus the optionally present attributes the script probes with
`hasattr` (lines 38–41 of `test_python_baseline.py`). -/
structure InfoData where
  shown : String
  drone_version : Option String
  controller_version : Option String
deriving DecidableEq

/-- Environment of `test_python_baseline.py`: the outcome of each SDK call the
script can make on the session handle. -/
structure DroneEnvB where
  pair : PyResult Unit
  get_information_data : PyResult InfoData
  get_cpu_id_data : PyResult String
  get_address_data : PyResult String
  get_count_data : PyResult String
  get_flight_time : PyResult ℚ
  get_takeoff_count : PyResult ℚ
  get_landing_count : PyResult ℚ
  get_accident_count : PyResult ℚ
  get_pressure : PyResult ℚ
  get_height : PyResult ℚ
  get_temperature : PyResult ℚ
  get_battery : PyResult ℚ
deriving DecidableEq

/-- Lines 16–20 of `test_python_baseline.py`, printed before `Drone()` runs. -/
def baselinePreamble : List Ev :=
  [Ev.print eq60,
   Ev.print "Python CoDrone EDU Baseline Test",
   Ev.print "Testing with Firmware 25.2.1",
   Ev.print eq60,
   Ev.print ""]

/-- Test 2 (lines 33–44): device information, fault-isolated. -/
def test2Info (env : DroneEnvB) : List Ev :=
  [Ev.print "📋 Test 2: Device Information", Ev.print dash60,
   Ev.callGetInformationData] ++
  (match env.get_information_data with
   | PyResult.exn m => [Ev.print ("⚠️  get_information_data() failed: " ++ m)]
   | PyResult.ok info =>
     [Ev.print ("Information Data: " ++ info.shown)] ++
     (match info.drone_version with
      | some v => [Ev.print ("  Drone Version: " ++ v)]
      | none => []) ++
     (match info.controller_version with
      | some v => [Ev.print ("  Controller Version: " ++ v)]
      | none => [])) ++
  [Ev.print ""]

/-- Test 3 (lines 47–54): CPU id, fault-isolated. -/
def test3CpuId (env : DroneEnvB) : List Ev :=
  [Ev.print "🔑 Test 3: Device CPU ID", Ev.print dash60, Ev.callGetCpuIdData] ++
  (match env.get_cpu_id_data with
   | PyResult.exn m => [Ev.print ("⚠️  get_cpu_id_data() failed: " ++ m)]
   | PyResult.ok s => [Ev.print ("CPU ID Data: " ++ s)]) ++
  [Ev.print ""]

/-- Test 4 (lines 57–64): Bluetooth address, fault-isolated. -/
def test4Address (env : DroneEnvB) : List Ev :=
  [Ev.print "📍 Test 4: Bluetooth Address", Ev.print dash60, Ev.callGetAddressData] ++
  (match env.get_address_data with
   | PyResult.exn m => [Ev.print ("⚠️  get_address_data() failed: " ++ m)]
   | PyResult.ok s => [Ev.print ("Address Data: " ++ s)]) ++
  [Ev.print ""]

/-- One nested flight-statistics query of lines 74–96: the call, a report line
on success, and on any exception a bare `except: pass` that prints nothing. -/
def nestedCount (callEv : Ev) (r : PyResult ℚ) (label : String) (unitSfx : String) :
    List Ev :=
  callEv :: (match r with
   | PyResult.exn _ => []
   | PyResult.ok v =>
     [Ev.printNum { label := label, value := v, precision := none, unit := unitSfx }])

/-- Test 5 (lines 67–99): flight statistics with the four nested queries. -/
def test5Counts (env : DroneEnvB) : List Ev :=
  [Ev.print "📊 Test 5: Flight Statistics", Ev.print dash60, Ev.callGetCountData] ++
  (match env.get_count_data with
   | PyResult.exn m => [Ev.print ("⚠️  get_count_data() failed: " ++ m)]
   | PyResult.ok cd =>
     [Ev.print ("Count Data: " ++ cd)] ++
     nestedCount Ev.callGetFlightTime env.get_flight_time "  Flight Time: " " seconds" ++
     nestedCount Ev.callGetTakeoffCount env.get_takeoff_count "  Takeoff Count: " "" ++
     nestedCount Ev.callGetLandingCount env.get_landing_count "  Landing Count: " "" ++
     nestedCount Ev.callGetAccidentCount env.get_accident_count "  Accident Count: " "") ++
  [Ev.print ""]

/-- Test 6 (lines 102–116): altitude/pressure/temperature triple; the four
calls run in sequence inside one fault boundary, and `get_pressure` is called
twice (lines 106 and 108). -/
def test6Altitude (env : DroneEnvB) : List Ev :=
  [Ev.print "📏 Test 6: Altitude Reading", Ev.print dash60, Ev.callGetPressure] ++
  (match env.get_pressure with
   | PyResult.exn m => [Ev.print ("⚠️  Altitude test failed: " ++ m)]
   | PyResult.ok _ =>
     Ev.callGetHeight ::
     (match env.get_height with
      | PyResult.exn m => [Ev.print ("⚠️  Altitude test failed: " ++ m)]
      | PyResult.ok a =>
        Ev.callGetPressure ::
        (match env.get_pressure with
         | PyResult.exn m => [Ev.print ("⚠️  Altitude test failed: " ++ m)]
         | PyResult.ok p =>
           Ev.callGetTemperature ::
           (match env.get_temperature with
            | PyResult.exn m => [Ev.print ("⚠️  Altitude test failed: " ++ m)]
            | PyResult.ok t =>
              [Ev.printNum { label := "  Altitude: ", value := a, precision := none, unit := " m" },
               Ev.printNum { label := "  Pressure: ", value := p, precision := none, unit := " hPa" },
               Ev.printNum { label := "  Temperature: ", value := t, precision := none, unit := " °C" }])))) ++
  [Ev.print ""]

/-- Test 7 (lines 119–126): battery, fault-isolated. -/
def test7Battery (env : DroneEnvB) : List Ev :=
  [Ev.print "🔋 Test 7: Battery Level", Ev.print dash60, Ev.callGetBattery] ++
  (match env.get_battery with
   | PyResult.exn m => [Ev.print ("⚠️  Battery test failed: " ++ m)]
   | PyResult.ok b =>
     [Ev.printNum { label := "  Battery: ", value := b, precision := none, unit := "%" }]) ++
  [Ev.print ""]

/-- Closing banner, lines 128–130. -/
def baselineFinale : List Ev :=
  [Ev.print eq60, Ev.print "✅ Python baseline test complete!", Ev.print eq60]

/-- The `try` body of `test_python_baseline.py` (lines 24–130).  Only the
`pair` call can raise out of the body: every probe after it carries its own
handler. -/
def baselineTryBody (env : DroneEnvB) : List Ev × Option String :=
  let e1 := [Ev.print "📡 Test 1: Connection", Ev.print dash60, Ev.callPair]
  match env.pair with
  | PyResult.exn m => (e1, some m)
  | PyResult.ok _ =>
    (e1 ++ [Ev.print "✅ Connected successfully", Ev.print ""] ++
     test2Info env ++ test3CpuId env ++ test4Address env ++ test5Counts env ++
     test6Altitude env ++ test7Battery env ++ baselineFinale, none)

/-- The `try`/`except`/`finally` region of lines 24–139: body events, the
top-level handler on an escaped exception, then the `finally` teardown
(lines 136–139). -/
def baselineMain (env : DroneEnvB) : List Ev :=
  baselinePreamble ++
  (match baselineTryBody env with
   | (evs, some m) => evs ++ [Ev.print ("\n❌ Error during testing: " ++ m), Ev.traceback]
   | (evs, none) => evs) ++
  [Ev.print "\nDisconnecting...", Ev.callClose, Ev.print "Disconnected."]

/-- The whole of `main` in `test_python_baseline.py`, with the `Drone()`
constructor allowed to raise (line 22, outside the `try`). -/
def baselineRun (ctor : PyResult Unit) (env : DroneEnvB) : List Ev × Option String :=
  match ctor with
  | PyResult.exn m => (baselinePreamble, some m)
  | PyResult.ok _ => (baselineMain env, none)

/-- The events of a comparison-script run from the first print up to (and
excluding) the low-level request call, in the run where connection, range,
height and state probes all succeeded. -/
def compareUpToRequest (mm h : ℚ) (stl : List ℚ) : List Ev :=
  comparePreamble ++
  [Ev.print "📡 Connecting...", Ev.callPair, Ev.print "✅ Connected\n",
   Ev.sleep (1/2)] ++ rangeHeader ++ [Ev.callGetRangeData, Ev.callGetHeight] ++
  rangeReport mm h ++ baroHeader ++ [Ev.callGetStateData] ++ stateReport stl

/-! Helper lemmas: the session close appears in no event emitted by a `try`
body, so the single close of each `finally` block is the only one. -/

theorem stateReport_close_free (st : List ℚ) : Ev.callClose ∉ stateReport st := by
  unfold stateReport
  split <;> simp

theorem compareTryBody_close_free (env : DroneEnvC) :
    Ev.callClose ∉ (compareTryBody env).1 := by
  obtain ⟨p, rg, ht, sd, rq, pr, tp⟩ := env
  cases p with
  | exn m => simp [compareTryBody]
  | ok u =>
    cases rg with
    | exn m => simp [compareTryBody, rangeHeader]
    | ok r =>
      cases hri : pyIndex r 2 with
      | exn m => simp [compareTryBody, rangeHeader, hri]
      | ok mm =>
        cases ht with
        | exn m => simp [compareTryBody, rangeHeader, hri]
        | ok h =>
          cases sd with
          | exn m =>
            simp [compareTryBody, rangeHeader, hri, rangeReport, baroHeader]
          | ok stl =>
            cases rq with
            | exn m =>
              simp [compareTryBody, rangeHeader, hri, rangeReport, baroHeader,
                stateReport_close_free]
            | ok u2 =>
              cases pr with
              | exn m =>
                simp [compareTryBody, rangeHeader, hri, rangeReport, baroHeader,
                  stateReport_close_free]
              | ok pv =>
                cases tp with
                | exn m =>
                  simp [compareTryBody, rangeHeader, hri, rangeReport, baroHeader,
                    stateReport_close_free]
                | ok tv =>
                  simp [compareTryBody, rangeHeader, hri, rangeReport, baroHeader,
                    stateReport_close_free, pressureReport, conclusionLines]

theorem compareMain_count_close (env : DroneEnvC) :
    (compareMain env).count Ev.callClose = 1 := by
  have h := compareTryBody_close_free env
  unfold compareMain
  rcases hb : compareTryBody env with ⟨evs, e?⟩
  rw [hb] at h
  have hz : evs.count Ev.callClose = 0 := List.count_eq_zero.mpr h
  cases e? <;>
    simp [List.count_append, List.count_cons, comparePreamble, hz]

theorem test2Info_close_free (env : DroneEnvB) : Ev.callClose ∉ test2Info env := by
  unfold test2Info
  cases env.get_information_data with
  | exn m => simp
  | ok i =>
    cases hdv : i.drone_version <;> cases hcv : i.controller_version <;> simp [hdv, hcv]

theorem test3CpuId_close_free (env : DroneEnvB) : Ev.callClose ∉ test3CpuId env := by
  unfold test3CpuId
  cases env.get_cpu_id_data <;> simp

theorem test4Address_close_free (env : DroneEnvB) : Ev.callClose ∉ test4Address env := by
  unfold test4Address
  cases env.get_address_data <;> simp

theorem test5Counts_close_free (env : DroneEnvB) : Ev.callClose ∉ test5Counts env := by
  unfold test5Counts
  cases env.get_count_data with
  | exn m => simp
  | ok cd =>
    cases env.get_flight_time <;> cases env.get_takeoff_count <;>
      cases env.get_landing_count <;> cases env.get_accident_count <;>
      simp [nestedCount]

theorem test6Altitude_close_free (env : DroneEnvB) : Ev.callClose ∉ test6Altitude env := by
  unfold test6Altitude
  cases env.get_pressure <;> cases env.get_height <;> cases env.get_temperature <;> simp

theorem test7Battery_close_free (env : DroneEnvB) : Ev.callClose ∉ test7Battery env := by
  unfold test7Battery
  cases env.get_battery <;> simp

theorem baselineTryBody_close_free (env : DroneEnvB) :
    Ev.callClose ∉ (baselineTryBody env).1 := by
  unfold baselineTryBody
  cases env.pair with
  | exn m => simp
  | ok u =>
    simp [test2Info_close_free, test3CpuId_close_free, test4Address_close_free,
      test5Counts_close_free, test6Altitude_close_free, test7Battery_close_free,
      baselineFinale]

theorem baselineMain_count_close (env : DroneEnvB) :
    (baselineMain env).count Ev.callClose = 1 := by
  have h := baselineTryBody_close_free env
  unfold baselineMain
  rcases hb : baselineTryBody env with ⟨evs, e?⟩
  rw [hb] at h
  have hz : evs.count Ev.callClose = 0 := List.count_eq_zero.mpr h
  cases e? <;>
    simp [List.count_append, List.count_cons, baselinePreamble, hz]

/-! Concrete environments used to evaluate the scripts on closed inputs. -/

/-- A fully successful environment for the sensor-comparison script: the raw
range list holds 1500 mm at index 2 and the height accessor returns 1.5 m. -/
def envCok : DroneEnvC where
  pair := PyResult.ok ()
  get_range_data := PyResult.ok [0, 0, 1500, 0]
  get_height := PyResult.ok (3/2)
  get_state_data := PyResult.ok []
  sendRequest := PyResult.ok ()
  get_pressure := PyResult.ok 1013
  get_drone_temperature := PyResult.ok 25

/-- The successful comparison environment, except that the range-data query
raises. -/
def envCrangeFail : DroneEnvC :=
  { envCok with get_range_data := PyResult.exn "range sensor failure" }

/-- The successful comparison environment, except that `pair` raises. -/
def envCpairFail : DroneEnvC :=
  { envCok with pair := PyResult.exn "no controller detected" }

/-- The successful comparison environment, except that the range list is too
short to be indexed at position 2. -/
def envCshortRange : DroneEnvC :=
  { envCok with get_range_data := PyResult.ok [0, 0] }

/-- A fully successful environment for the baseline script. -/
def envBok : DroneEnvB where
  pair := PyResult.ok ()
  get_information_data := PyResult.ok
    { shown := "InformationData", drone_version := some "25.2.1", controller_version := some "25.2.1" }
  get_cpu_id_data := PyResult.ok "CPU-0042"
  get_address_data := PyResult.ok "90:0F:00:00:00:01"
  get_count_data := PyResult.ok "CountData"
  get_flight_time := PyResult.ok 120
  get_takeoff_count := PyResult.ok 5
  get_landing_count := PyResult.ok 5
  get_accident_count := PyResult.ok 0
  get_pressure := PyResult.ok 1013
  get_height := PyResult.ok 0
  get_temperature := PyResult.ok 25
  get_battery := PyResult.ok 85

/-- The successful baseline environment, except that the nested flight-time
query raises. -/
def envBflightFail : DroneEnvB :=
  { envBok with get_flight_time := PyResult.exn "boom" }

/-- The successful baseline environment, except that `pair` raises. -/
def envBpairFail : DroneEnvB :=
  { envBok with pair := PyResult.exn "no controller detected" }

/-! Text containment over traces, used to state what a trace does (not)
mention. -/

/-- Boolean prefix test on character lists. -/
def charPrefix : List Char → List Char → Bool
  | [], _ => true
  | _ :: _, [] => false
  | c :: cs, d :: ds => c == d && charPrefix cs ds

/-- Boolean containment test: does `s` occur as a contiguous run of `t`? -/
def charInfix (s : List Char) : List Char → Bool
  | [] => charPrefix s []
  | d :: ds => charPrefix s (d :: ds) || charInfix s ds

/-- The literal text fragments of one event. -/
def evTexts : Ev → List String
  | Ev.print s => [s]
  | Ev.printNum l => [l.label, l.unit]
  | _ => []

/-- Whether some printed line of the trace mentions the string `s`. -/
def mentionsText (s : String) (evs : List Ev) : Bool :=
  evs.any fun e => (evTexts e).any fun t => charInfix s.data t.data

/-! Small facts about the report blocks reused across claim proofs. -/

theorem stateReport_pressure_free (st : List ℚ) :
    Ev.callGetPressure ∉ stateReport st := by
  unfold stateReport
  split <;> simp

theorem stateReport_temperature_free (st : List ℚ) :
    Ev.callGetDroneTemperature ∉ stateReport st := by
  unfold stateReport
  split <;> simp

/-- C1 counterexample: in `compare_altitude_sensors.py` a probe failure is not
caught at the probe's boundary.  When the range-data query (the first probe)
raises, the exception travels to the top-level handler and the height, state,
pressure and temperature probes never execute. -/
theorem probe_failure_aborts_rest :
    envCrangeFail.get_range_data = PyResult.exn "range sensor failure" ∧
    Ev.print ("\n❌ Error: range sensor failure") ∈ compareMain envCrangeFail ∧
    Ev.callGetHeight ∉ compareMain envCrangeFail ∧
    Ev.callGetStateData ∉ compareMain envCrangeFail ∧
    Ev.callGetPressure ∉ compareMain envCrangeFail ∧
    Ev.callGetDroneTemperature ∉ compareMain envCrangeFail :=
  ⟨rfl, by decide, by decide, by decide, by decide, by decide⟩

/-- C1 (amended): the two scripts differ.  In `test_python_baseline.py` every
probe is fault-isolated: whenever `pair` succeeds, each probe's query call
executes no matter which other probes raise.  In
`compare_altitude_sensors.py` there is no per-probe boundary: when the
range-data probe raises, every later probe of that script is skipped. -/
theorem fault_isolation_amended (envB : DroneEnvB) (envC : DroneEnvC) (m : String)
    (hB : envB.pair = PyResult.ok ())
    (hC : envC.pair = PyResult.ok ())
    (hr : envC.get_range_data = PyResult.exn m) :
    (Ev.callGetInformationData ∈ baselineMain envB ∧
     Ev.callGetCpuIdData ∈ baselineMain envB ∧
     Ev.callGetAddressData ∈ baselineMain envB ∧
     Ev.callGetCountData ∈ baselineMain envB ∧
     Ev.callGetPressure ∈ baselineMain envB ∧
     Ev.callGetBattery ∈ baselineMain envB) ∧
    (Ev.callGetHeight ∉ compareMain envC ∧
     Ev.callGetStateData ∉ compareMain envC ∧
     Ev.callGetPressure ∉ compareMain envC ∧
     Ev.callGetDroneTemperature ∉ compareMain envC) := by
  constructor
  · simp [baselineMain, baselineTryBody, hB, test2Info, test3CpuId, test4Address,
      test5Counts, test6Altitude, test7Battery]
  · simp [compareMain, compareTryBody, hC, hr, comparePreamble, rangeHeader]

/-- C1 amended-theorem witness at concrete environments. -/
theorem fault_isolation_amended_witness :
    (Ev.callGetInformationData ∈ baselineMain envBflightFail ∧
     Ev.callGetCpuIdData ∈ baselineMain envBflightFail ∧
     Ev.callGetAddressData ∈ baselineMain envBflightFail ∧
     Ev.callGetCountData ∈ baselineMain envBflightFail ∧
     Ev.callGetPressure ∈ baselineMain envBflightFail ∧
     Ev.callGetBattery ∈ baselineMain envBflightFail) ∧
    (Ev.callGetHeight ∉ compareMain envCrangeFail ∧
     Ev.callGetStateData ∉ compareMain envCrangeFail ∧
     Ev.callGetPressure ∉ compareMain envCrangeFail ∧
     Ev.callGetDroneTemperature ∉ compareMain envCrangeFail) :=
  fault_isolation_amended envBflightFail envCrangeFail "range sensor failure" rfl rfl rfl

/-- C2: on every execution path of each script's try/except/finally region —
normal completion, any probe failure, and failure of the `pair` connect step —
the session handle's `close()` runs exactly once, in the `finally` block,
before the process exits. -/
theorem close_called_exactly_once (envC : DroneEnvC) (envB : DroneEnvB) :
    (compareMain envC).count Ev.callClose = 1 ∧
    (baselineMain envB).count Ev.callClose = 1 :=
  ⟨compareMain_count_close envC, baselineMain_count_close envB⟩

/-- C3: whenever the range and height probes succeed, the comparison probe
prints the match line built from `matchMarker`, and the marker is ✓ exactly
when `|height_m − bottom_range_m| < 0.001` (strict); at a difference of
exactly 0.001 it reports ✗. -/
theorem match_marker_strict (env : DroneEnvC) (r : List ℚ) (mm h : ℚ)
    (hp : env.pair = PyResult.ok ()) (hr : env.get_range_data = PyResult.ok r)
    (hi : r.get? 2 = some mm) (hh : env.get_height = PyResult.ok h) :
    Ev.print ("  Match: " ++ matchMarker h (mm / 1000)) ∈ compareMain env ∧
    (matchMarker h (mm / 1000) = "✓" ↔ |h - mm / 1000| < 1/1000) ∧
    (|h - mm / 1000| = 1/1000 → matchMarker h (mm / 1000) = "✗") := by
  have hpy : pyIndex r 2 = PyResult.ok mm := by
    unfold pyIndex
    rw [hi]
  refine ⟨?_, ?_, ?_⟩
  · cases hsd : env.get_state_data <;> cases hrq : env.sendRequest <;>
      cases hpr : env.get_pressure <;> cases htp : env.get_drone_temperature <;>
      simp [compareMain, compareTryBody, hp, hr, hpy, hh, hsd, hrq, hpr, htp,
        rangeReport]
  · constructor
    · intro hm
      by_contra hlt
      rw [matchMarker, if_neg hlt] at hm
      exact absurd hm (by decide)
    · intro hlt
      rw [matchMarker, if_pos hlt]
  · intro he
    have hn : ¬ |h - mm / 1000| < 1/1000 := by
      rw [he]
      exact lt_irrefl _
    rw [matchMarker, if_neg hn]

/-- C3 witness: the concrete successful run (1500 mm, height 1.5 m). -/
theorem match_marker_strict_witness :
    Ev.print ("  Match: " ++ matchMarker (3/2) (1500 / 1000)) ∈ compareMain envCok ∧
    (matchMarker (3/2) (1500 / 1000) = "✓" ↔ |(3/2 : ℚ) - 1500 / 1000| < 1/1000) ∧
    (|(3/2 : ℚ) - 1500 / 1000| = 1/1000 → matchMarker (3/2) (1500 / 1000) = "✗") :=
  match_marker_strict envCok [0, 0, 1500, 0] 1500 (3/2) rfl rfl rfl rfl

/-- C4: the meters value the script reports for the raw range reading is the
raw millimeter value divided by exactly 1000, as the `:.3f`-formatted
`Bottom Range` line of the trace shows; in particular 1500 mm becomes
1.5 m. -/
theorem mm_to_m_conversion (env : DroneEnvC) (r : List ℚ) (mm h : ℚ)
    (hp : env.pair = PyResult.ok ()) (hr : env.get_range_data = PyResult.ok r)
    (hi : r.get? 2 = some mm) (hh : env.get_height = PyResult.ok h) :
    Ev.printNum
      { label := "  Bottom Range:        ", value := mm / 1000,
        precision := some 3, unit := " m" } ∈ compareMain env ∧
    (1500 : ℚ) / 1000 = 3/2 := by
  have hpy : pyIndex r 2 = PyResult.ok mm := by
    unfold pyIndex
    rw [hi]
  constructor
  · cases hsd : env.get_state_data <;> cases hrq : env.sendRequest <;>
      cases hpr : env.get_pressure <;> cases htp : env.get_drone_temperature <;>
      simp [compareMain, compareTryBody, hp, hr, hpy, hh, hsd, hrq, hpr, htp,
        rangeReport]
  · norm_num

/-- C4 witness: the concrete successful run. -/
theorem mm_to_m_conversion_witness :
    Ev.printNum
      { label := "  Bottom Range:        ", value := (1500 : ℚ) / 1000,
        precision := some 3, unit := " m" } ∈ compareMain envCok ∧
    (1500 : ℚ) / 1000 = 3/2 :=
  mm_to_m_conversion envCok [0, 0, 1500, 0] 1500 (3/2) rfl rfl rfl rfl

/-- C5 counterexample: in the run where only the nested flight-time query of
Test 5 raises (message "boom"), the query executes and execution continues to
the next nested query, but no printed line of the whole run mentions "boom"
and no warning marker is printed anywhere: the bare `except: pass` of
lines 77–78 swallows the failure silently. -/
theorem nested_failure_silent :
    envBflightFail.get_flight_time = PyResult.exn "boom" ∧
    Ev.callGetFlightTime ∈ baselineMain envBflightFail ∧
    Ev.callGetTakeoffCount ∈ baselineMain envBflightFail ∧
    mentionsText "boom" (baselineMain envBflightFail) = false ∧
    mentionsText "⚠️" (baselineMain envBflightFail) = false :=
  ⟨rfl, by decide, by decide, by decide, by decide⟩

/-- C5 (amended): an exception in one of the six outer probes of
`test_python_baseline.py` is caught at that probe's boundary and a diagnostic
line carrying the ⚠️ marker and the exception's text is printed; but an
exception in any of the four nested flight-statistics queries is caught by a
bare `except: pass` that emits no event at all — those failures are silently
swallowed. -/
theorem per_probe_diagnostics_amended (env : DroneEnvB) (m : String)
    (hp : env.pair = PyResult.ok ()) :
    (env.get_information_data = PyResult.exn m →
      Ev.print ("⚠️  get_information_data() failed: " ++ m) ∈ baselineMain env) ∧
    (env.get_cpu_id_data = PyResult.exn m →
      Ev.print ("⚠️  get_cpu_id_data() failed: " ++ m) ∈ baselineMain env) ∧
    (env.get_address_data = PyResult.exn m →
      Ev.print ("⚠️  get_address_data() failed: " ++ m) ∈ baselineMain env) ∧
    (env.get_count_data = PyResult.exn m →
      Ev.print ("⚠️  get_count_data() failed: " ++ m) ∈ baselineMain env) ∧
    (env.get_pressure = PyResult.exn m →
      Ev.print ("⚠️  Altitude test failed: " ++ m) ∈ baselineMain env) ∧
    (env.get_battery = PyResult.exn m →
      Ev.print ("⚠️  Battery test failed: " ++ m) ∈ baselineMain env) ∧
    (nestedCount Ev.callGetFlightTime (PyResult.exn m) "  Flight Time: " " seconds" =
      [Ev.callGetFlightTime]) ∧
    (nestedCount Ev.callGetTakeoffCount (PyResult.exn m) "  Takeoff Count: " "" =
      [Ev.callGetTakeoffCount]) ∧
    (nestedCount Ev.callGetLandingCount (PyResult.exn m) "  Landing Count: " "" =
      [Ev.callGetLandingCount]) ∧
    (nestedCount Ev.callGetAccidentCount (PyResult.exn m) "  Accident Count: " "" =
      [Ev.callGetAccidentCount]) := by
  refine ⟨fun h1 => ?_, fun h2 => ?_, fun h3 => ?_, fun h4 => ?_, fun h5 => ?_,
    fun h6 => ?_, rfl, rfl, rfl, rfl⟩
  · simp [baselineMain, baselineTryBody, hp, test2Info, h1]
  · simp [baselineMain, baselineTryBody, hp, test3CpuId, h2]
  · simp [baselineMain, baselineTryBody, hp, test4Address, h3]
  · simp [baselineMain, baselineTryBody, hp, test5Counts, h4]
  · simp [baselineMain, baselineTryBody, hp, test6Altitude, h5]
  · simp [baselineMain, baselineTryBody, hp, test7Battery, h6]

/-- C5 amended-theorem witness: an environment whose CPU-id query raises. -/
theorem per_probe_diagnostics_amended_witness :
    ({ envBok with get_cpu_id_data := PyResult.exn "query failed" } :
        DroneEnvB).get_cpu_id_data = PyResult.exn "query failed" ∧
    Ev.print ("⚠️  get_cpu_id_data() failed: " ++ "query failed") ∈
      baselineMain { envBok with get_cpu_id_data := PyResult.exn "query failed" } :=
  ⟨rfl, (per_probe_diagnostics_amended
    { envBok with get_cpu_id_data := PyResult.exn "query failed" }
    "query failed" rfl).2.1 rfl⟩

/-- C6: when `pair` raises, each script prints the top-level error diagnostic,
runs none of its probes, and still prints the teardown notice and completion
lines around the close; the whole trace is exactly the preamble, the
connection attempt, the handler output and the teardown. -/
theorem connect_failure_teardown (envC : DroneEnvC) (envB : DroneEnvB)
    (m1 m2 : String)
    (hC : envC.pair = PyResult.exn m1) (hB : envB.pair = PyResult.exn m2) :
    compareMain envC = comparePreamble ++
      [Ev.print "📡 Connecting...", Ev.callPair,
       Ev.print ("\n❌ Error: " ++ m1), Ev.traceback,
       Ev.print "Disconnecting...", Ev.callClose, Ev.print "Done."] ∧
    baselineMain envB = baselinePreamble ++
      [Ev.print "📡 Test 1: Connection", Ev.print dash60, Ev.callPair,
       Ev.print ("\n❌ Error during testing: " ++ m2), Ev.traceback,
       Ev.print "\nDisconnecting...", Ev.callClose, Ev.print "Disconnected."] := by
  constructor
  · simp [compareMain, compareTryBody, hC]
  · simp [baselineMain, baselineTryBody, hB]

/-- C6 witness: concrete environments whose `pair` raises. -/
theorem connect_failure_teardown_witness :
    compareMain envCpairFail = comparePreamble ++
      [Ev.print "📡 Connecting...", Ev.callPair,
       Ev.print ("\n❌ Error: " ++ "no controller detected"), Ev.traceback,
       Ev.print "Disconnecting...", Ev.callClose, Ev.print "Done."] ∧
    baselineMain envBpairFail = baselinePreamble ++
      [Ev.print "📡 Test 1: Connection", Ev.print dash60, Ev.callPair,
       Ev.print ("\n❌ Error during testing: " ++ "no controller detected"), Ev.traceback,
       Ev.print "\nDisconnecting...", Ev.callClose, Ev.print "Disconnected."] :=
  connect_failure_teardown envCpairFail envBpairFail
    "no controller detected" "no controller detected" rfl rfl

/-- C7: in the sensor-comparison script the pressure and temperature reads are
always preceded, in program order, by the low-level request
`sendRequest(0x10, 0x20)` followed by the 0.1 s delay: whenever the trace
contains the pressure (resp. temperature) call, the trace decomposes around
the contiguous run request–sleep–read, and no such read occurs earlier. -/
theorem pressure_read_after_request (env : DroneEnvC) :
    (Ev.callGetPressure ∈ compareMain env →
      ∃ pre post, compareMain env =
        pre ++ Ev.callSendRequest 16 32 :: Ev.sleep (1/10) :: Ev.callGetPressure :: post ∧
        Ev.callGetPressure ∉ pre) ∧
    (Ev.callGetDroneTemperature ∈ compareMain env →
      ∃ pre post, compareMain env =
        pre ++ Ev.callSendRequest 16 32 :: Ev.sleep (1/10) :: Ev.callGetPressure ::
          Ev.callGetDroneTemperature :: post ∧
        Ev.callGetDroneTemperature ∉ pre) := by
  cases hp : env.pair with
  | exn m => simp [compareMain, compareTryBody, hp, comparePreamble]
  | ok u =>
  cases hr : env.get_range_data with
  | exn m => simp [compareMain, compareTryBody, hp, hr, comparePreamble, rangeHeader]
  | ok r =>
  cases hpy : pyIndex r 2 with
  | exn m => simp [compareMain, compareTryBody, hp, hr, hpy, comparePreamble, rangeHeader]
  | ok mm =>
  cases hh : env.get_height with
  | exn m => simp [compareMain, compareTryBody, hp, hr, hpy, hh, comparePreamble, rangeHeader]
  | ok h =>
  cases hsd : env.get_state_data with
  | exn m =>
    simp [compareMain, compareTryBody, hp, hr, hpy, hh, hsd, comparePreamble,
      rangeHeader, rangeReport, baroHeader]
  | ok stl =>
  cases hrq : env.sendRequest with
  | exn m =>
    simp [compareMain, compareTryBody, hp, hr, hpy, hh, hsd, hrq, comparePreamble,
      rangeHeader, rangeReport, baroHeader, stateReport_pressure_free,
      stateReport_temperature_free]
  | ok u2 =>
  cases hpr : env.get_pressure with
  | exn m =>
    refine ⟨fun _ => ⟨compareUpToRequest mm h stl,
      [Ev.print ("\n❌ Error: " ++ m), Ev.traceback, Ev.print "Disconnecting...",
       Ev.callClose, Ev.print "Done."], ?_, ?_⟩, fun hmem => ?_⟩
    · simp [compareMain, compareTryBody, hp, hr, hpy, hh, hsd, hrq, hpr,
        compareUpToRequest]
    · simp [compareUpToRequest, comparePreamble, rangeHeader, rangeReport,
        baroHeader, stateReport_pressure_free]
    · exfalso
      revert hmem
      simp [compareMain, compareTryBody, hp, hr, hpy, hh, hsd, hrq, hpr,
        comparePreamble, rangeHeader, rangeReport, baroHeader,
        stateReport_temperature_free]
  | ok pv =>
  cases htp : env.get_drone_temperature with
  | exn m =>
    refine ⟨fun _ => ⟨compareUpToRequest mm h stl,
      Ev.callGetDroneTemperature :: Ev.print ("\n❌ Error: " ++ m) :: Ev.traceback ::
        [Ev.print "Disconnecting...", Ev.callClose, Ev.print "Done."], ?_, ?_⟩,
      fun _ => ⟨compareUpToRequest mm h stl,
      [Ev.print ("\n❌ Error: " ++ m), Ev.traceback, Ev.print "Disconnecting...",
       Ev.callClose, Ev.print "Done."], ?_, ?_⟩⟩
    · simp [compareMain, compareTryBody, hp, hr, hpy, hh, hsd, hrq, hpr, htp,
        compareUpToRequest]
    · simp [compareUpToRequest, comparePreamble, rangeHeader, rangeReport,
        baroHeader, stateReport_pressure_free]
    · simp [compareMain, compareTryBody, hp, hr, hpy, hh, hsd, hrq, hpr, htp,
        compareUpToRequest]
    · simp [compareUpToRequest, comparePreamble, rangeHeader, rangeReport,
        baroHeader, stateReport_temperature_free]
  | ok tv =>
    refine ⟨fun _ => ⟨compareUpToRequest mm h stl,
      Ev.callGetDroneTemperature :: (pressureReport pv tv ++ conclusionLines ++
        [Ev.print "Disconnecting...", Ev.callClose, Ev.print "Done."]), ?_, ?_⟩,
      fun _ => ⟨compareUpToRequest mm h stl,
      pressureReport pv tv ++ conclusionLines ++
        [Ev.print "Disconnecting...", Ev.callClose, Ev.print "Done."], ?_, ?_⟩⟩
    · simp [compareMain, compareTryBody, hp, hr, hpy, hh, hsd, hrq, hpr, htp,
        compareUpToRequest]
    · simp [compareUpToRequest, comparePreamble, rangeHeader, rangeReport,
        baroHeader, stateReport_pressure_free]
    · simp [compareMain, compareTryBody, hp, hr, hpy, hh, hsd, hrq, hpr, htp,
        compareUpToRequest]
    · simp [compareUpToRequest, comparePreamble, rangeHeader, rangeReport,
        baroHeader, stateReport_temperature_free]

/-- C7 witness: the concrete successful run contains the pressure call, and
the decomposition around the request therefore exists. -/
theorem pressure_read_after_request_witness :
    (Ev.callGetPressure ∈ compareMain envCok ∧
      ∃ pre post, compareMain envCok =
        pre ++ Ev.callSendRequest 16 32 :: Ev.sleep (1/10) :: Ev.callGetPressure :: post ∧
        Ev.callGetPressure ∉ pre) ∧
    (Ev.callGetDroneTemperature ∈ compareMain envCok ∧
      ∃ pre post, compareMain envCok =
        pre ++ Ev.callSendRequest 16 32 :: Ev.sleep (1/10) :: Ev.callGetPressure ::
          Ev.callGetDroneTemperature :: post ∧
        Ev.callGetDroneTemperature ∉ pre) :=
  ⟨⟨by decide, (pressure_read_after_request envCok).1 (by decide)⟩,
   ⟨by decide, (pressure_read_after_request envCok).2 (by decide)⟩⟩

/-- C8 counterexample: in the all-probes-succeed run of
`test_python_baseline.py` the pressure line (line 112, `f"  Pressure:
{pressure} hPa"`) carries the hPa suffix but default formatting — its format
precision is `none`, not two decimal places; indeed every hPa-suffixed line of
that run has precision `none`. -/
theorem baseline_pressure_unformatted :
    Ev.printNum
      { label := "  Pressure: ", value := 1013, precision := none,
        unit := " hPa" } ∈ baselineMain envBok ∧
    (baselineMain envBok).all
      (fun e => match e with
        | Ev.printNum l => l.unit != " hPa" || l.precision == none
        | _ => true) = true :=
  ⟨by decide, by decide⟩

/-- C8 (amended): on an all-success run the comparison script prints its
pressure value with a `:.2f` format and the " hPa" suffix, while the baseline
script prints its pressure value with the " hPa" suffix but Python's default
formatting (no fixed two-decimal precision). -/
theorem pressure_line_format_amended (envC : DroneEnvC) (envB : DroneEnvB)
    (r stl : List ℚ) (mm h p t q a tb : ℚ)
    (hp : envC.pair = PyResult.ok ()) (hr : envC.get_range_data = PyResult.ok r)
    (hi : r.get? 2 = some mm) (hh : envC.get_height = PyResult.ok h)
    (hsd : envC.get_state_data = PyResult.ok stl)
    (hrq : envC.sendRequest = PyResult.ok ())
    (hpr : envC.get_pressure = PyResult.ok p)
    (htp : envC.get_drone_temperature = PyResult.ok t)
    (hbp : envB.pair = PyResult.ok ())
    (hbq : envB.get_pressure = PyResult.ok q)
    (hba : envB.get_height = PyResult.ok a)
    (hbt : envB.get_temperature = PyResult.ok tb) :
    Ev.printNum
      { label := "  Pressure:      ", value := p, precision := some 2,
        unit := " hPa" } ∈ compareMain envC ∧
    Ev.printNum
      { label := "  Pressure: ", value := q, precision := none,
        unit := " hPa" } ∈ baselineMain envB := by
  have hpy : pyIndex r 2 = PyResult.ok mm := by
    unfold pyIndex
    rw [hi]
  constructor
  · simp [compareMain, compareTryBody, hp, hr, hpy, hh, hsd, hrq, hpr, htp,
      pressureReport]
  · simp [baselineMain, baselineTryBody, hbp, test6Altitude, hbq, hba, hbt]

/-- C8 amended-theorem witness at the concrete all-success environments. -/
theorem pressure_line_format_amended_witness :
    Ev.printNum
      { label := "  Pressure:      ", value := (1013 : ℚ), precision := some 2,
        unit := " hPa" } ∈ compareMain envCok ∧
    Ev.printNum
      { label := "  Pressure: ", value := (1013 : ℚ), precision := none,
        unit := " hPa" } ∈ baselineMain envBok :=
  pressure_line_format_amended envCok envBok [0, 0, 1500, 0] [] 1500 (3/2)
    1013 25 1013 0 25 rfl rfl rfl rfl rfl rfl rfl rfl rfl rfl rfl rfl

/-- C9: the range probe of the comparison script indexes element 2 of the
range-data array unconditionally; whenever the returned array has length at
most 2, the IndexError escapes to the top-level handler (there is no per-probe
boundary), every subsequent probe is skipped, and teardown still closes the
session. -/
theorem range_index_out_of_bounds (env : DroneEnvC) (r : List ℚ)
    (hp : env.pair = PyResult.ok ()) (hr : env.get_range_data = PyResult.ok r)
    (hl : r.length ≤ 2) :
    Ev.callGetHeight ∉ compareMain env ∧
    Ev.callGetStateData ∉ compareMain env ∧
    Ev.callSendRequest 16 32 ∉ compareMain env ∧
    Ev.callGetPressure ∉ compareMain env ∧
    Ev.callGetDroneTemperature ∉ compareMain env ∧
    Ev.print ("\n❌ Error: " ++ "list index out of range") ∈ compareMain env ∧
    Ev.callClose ∈ compareMain env := by
  have hg : r.get? 2 = none := List.get?_eq_none.mpr hl
  have hpy : pyIndex r 2 = PyResult.exn "list index out of range" := by
    unfold pyIndex
    rw [hg]
  simp [compareMain, compareTryBody, hp, hr, hpy, comparePreamble, rangeHeader]

/-- C9 witness: the concrete run whose range list has only two elements. -/
theorem range_index_out_of_bounds_witness :
    Ev.callGetHeight ∉ compareMain envCshortRange ∧
    Ev.callGetStateData ∉ compareMain envCshortRange ∧
    Ev.callSendRequest 16 32 ∉ compareMain envCshortRange ∧
    Ev.callGetPressure ∉ compareMain envCshortRange ∧
    Ev.callGetDroneTemperature ∉ compareMain envCshortRange ∧
    Ev.print ("\n❌ Error: " ++ "list index out of range") ∈ compareMain envCshortRange ∧
    Ev.callClose ∈ compareMain envCshortRange :=
  range_index_out_of_bounds envCshortRange [0, 0] rfl rfl (by decide)

/-- C10: in both scripts the drone handle is constructed before the
try/finally region; when the constructor itself raises, the run stops with the
preamble only — `close()` is never invoked, no teardown notice is printed, and
the exception escapes `main` unhandled. -/
theorem ctor_failure_no_teardown (m : String) (envC : DroneEnvC) (envB : DroneEnvB) :
    compareRun (PyResult.exn m) envC = (comparePreamble, some m) ∧
    Ev.callClose ∉ comparePreamble ∧
    Ev.print "Disconnecting..." ∉ comparePreamble ∧
    baselineRun (PyResult.exn m) envB = (baselinePreamble, some m) ∧
    Ev.callClose ∉ baselinePreamble ∧
    Ev.print "\nDisconnecting..." ∉ baselinePreamble :=
  ⟨rfl, by decide, by decide, rfl, by decide, by decide⟩
